import Mathlib

/-!
Verification of the telebambu printer-monitoring core.

This file gives a shallow embedding of the repository's event/session core:

* `src/printers/manager.py` — the poller (`PrinterManager._check_printer_state`
  and its accessors `get_printer` / `get_camera_frame`);
* `src/data/storage.py` — the session store (`Storage`, `PrintSession`,
  `UserPreferences` and the mutating operations), together with its JSON
  persistence (`_save` / `_load`);
* `src/bot/handlers.py` — printer resolution (`_resolve_printer`) and the
  claim callback (`handle_claim`), plus the percent-target computation of
  `handle_notify`;
* `src/bot/messages.py` — the custom layer-notification gate
  (`MessageService.send_custom_layer_notification`) and the print-started
  announcement (`send_print_started`).

Python floats used as timestamps are modelled as `Int` (only the comparison
`now - last > 60` matters); machine integers are `Int`/`Nat` (Python ints are
unbounded, so no wraparound is modelled).
-/

namespace Telebambu

/-! ### Poller data model (src/printers/manager.py)

`GcodeState` mirrors `bambulabs_api.GcodeState` (the values the source
inspects).  `PrintStatus` is the secondary platform-specific sub-state; the
source only ever compares it for equality and against `UNKNOWN`, so its other
values are modelled as an opaque code. -/

inductive GcodeState where
  | UNKNOWN
  | IDLE
  | PREPARE
  | RUNNING
  | PAUSE
  | FINISH
  | FAILED
  deriving DecidableEq, Repr

inductive PrintStatus where
  | UNKNOWN
  | OTHER (code : Nat)
  deriving DecidableEq, Repr

/-- One poll-cycle reading of a printer's telemetry: everything
`_check_printer_state` can query from the device adapter during one call,
plus the wall-clock time `time.time()` observed at the pause check. -/
structure Reading where
  gcodeState : GcodeState
  printStatus : PrintStatus
  currentLayer : Int
  errorCode : Int
  time : Int
  printTime : Int
  deriving DecidableEq, Repr

/-- The per-printer remembered state of the poller: the slice of
`prev_states[i]`, `prev_layers[i]` and `last_paused_time[i]` for one
printer `i`. -/
structure PollState where
  prevGcode : GcodeState
  prevPrint : PrintStatus
  prevLayer : Int
  lastPausedTime : Int
  deriving DecidableEq, Repr

/-- Initial remembered state for a printer:
`(GcodeState.UNKNOWN, PrintStatus.UNKNOWN)`, layer `0`, `last_paused_time`
`0.0`. -/
def initPollState : PollState :=
  { prevGcode := GcodeState.UNKNOWN
    prevPrint := PrintStatus.UNKNOWN
    prevLayer := 0
    lastPausedTime := 0 }

/-- Domain events yielded by `_check_printer_state`.  The source's
`STATE_CHANGED` is emitted with two different data shapes
(`{prev,new}` for gcode state and `{prev_print,new_print}` for print
status); they are modelled as two constructors. -/
inductive Event where
  | STATE_CHANGED (prev new : GcodeState)
  | PRINT_FINISHED
  | PRINT_FAILED (errorCode : Int)
  | PRINT_PAUSED (errorCode : Int)
  | PRINT_STARTED (printTime : Int)
  | LAYER_CHANGED (prevLayer layer : Int)
  | STATE_CHANGED_PRINT (prev new : PrintStatus)
  deriving DecidableEq, Repr

/-- The gcode-state branch chain of `_check_printer_state` ("Check for gcode
state changes"): the events it yields, the (possibly reset) value of
`prev_layers[i]`, and the (possibly updated) value of
`last_paused_time[i]`. -/
def gcodePhase (s : PollState) (r : Reading) : List Event × Int × Int :=
  let g := r.gcodeState
  if s.prevGcode ≠ GcodeState.UNKNOWN ∧ s.prevGcode ≠ g then
    if g = GcodeState.FINISH then
      ([Event.STATE_CHANGED s.prevGcode g, Event.PRINT_FINISHED],
       s.prevLayer, s.lastPausedTime)
    else if g = GcodeState.FAILED then
      ([Event.STATE_CHANGED s.prevGcode g, Event.PRINT_FAILED r.errorCode],
       s.prevLayer, s.lastPausedTime)
    else if s.prevGcode = GcodeState.RUNNING ∧ g = GcodeState.PAUSE then
      if 60 < r.time - s.lastPausedTime then
        ([Event.STATE_CHANGED s.prevGcode g, Event.PRINT_PAUSED r.errorCode],
         s.prevLayer, r.time)
      else
        ([Event.STATE_CHANGED s.prevGcode g], s.prevLayer, s.lastPausedTime)
    else if (s.prevGcode = GcodeState.FINISH ∨ s.prevGcode = GcodeState.IDLE ∨
             s.prevGcode = GcodeState.PREPARE) ∧ g = GcodeState.RUNNING then
      -- Reset layer tracking for new print
      ([Event.STATE_CHANGED s.prevGcode g, Event.PRINT_STARTED r.printTime],
       0, s.lastPausedTime)
    else
      ([Event.STATE_CHANGED s.prevGcode g], s.prevLayer, s.lastPausedTime)
  else
    ([], s.prevLayer, s.lastPausedTime)

/-- The "Check for layer changes" block of `_check_printer_state`: given the
new gcode state, the fresh `current_layer_num()` reading and the remembered
layer (already reset to `0` by a started transition, when one fired), the
events it yields and the new `prev_layers[i]`. -/
def layerPhase (g : GcodeState) (currentLayer prevLayer : Int) :
    List Event × Int :=
  if g = GcodeState.RUNNING then
    if currentLayer ≠ prevLayer then
      ([Event.LAYER_CHANGED prevLayer currentLayer], currentLayer)
    else ([], prevLayer)
  else ([], prevLayer)

/-- The "Check for print state changes" block of `_check_printer_state`. -/
def printPhase (prevPrint newPrint : PrintStatus) : List Event :=
  if prevPrint ≠ PrintStatus.UNKNOWN ∧ prevPrint ≠ newPrint then
    [Event.STATE_CHANGED_PRINT prevPrint newPrint]
  else []

/-- `PrinterManager._check_printer_state` for one printer, as a pure step:
the events yielded during one call, and the updated remembered state.
Mirrors the source statement by statement: `prev_states[i]` is replaced by
the fresh reading unconditionally, the gcode-state branch chain fires at
most one domain event after the `STATE_CHANGED`, the started branch resets
`prev_layers[i]` before the layer check, the pause branch updates
`last_paused_time[i]` only when a `PRINT_PAUSED` is emitted, and the
print-status diff comes last. -/
def checkPrinterState (s : PollState) (r : Reading) : List Event × PollState :=
  let a := gcodePhase s r
  let b := layerPhase r.gcodeState r.currentLayer a.2.1
  (a.1 ++ b.1 ++ printPhase s.prevPrint r.printStatus,
   { prevGcode := r.gcodeState
     prevPrint := r.printStatus
     prevLayer := b.2
     lastPausedTime := a.2.2 })

/-- Repeated polling of one printer: feed a sequence of readings through
`_check_printer_state`, collecting the yielded events in order. -/
def runPoller (s : PollState) : List Reading → List Event × PollState
  | [] => ([], s)
  | r :: rs =>
    let st := checkPrinterState s r
    let rest := runPoller st.2 rs
    (st.1 ++ rest.1, rest.2)

/-! ### Event classifiers and transition counting -/

def Event.isStarted : Event → Bool
  | .PRINT_STARTED _ => true
  | _ => false

def Event.isFinished : Event → Bool
  | .PRINT_FINISHED => true
  | _ => false

def Event.isPaused : Event → Bool
  | .PRINT_PAUSED _ => true
  | _ => false

/-- A gcode-state `STATE_CHANGED` event. -/
def Event.isGcodeStateChanged : Event → Bool
  | .STATE_CHANGED _ _ => true
  | _ => false

/-- Any `STATE_CHANGED` event (gcode-state or print-status shape). -/
def Event.isAnyStateChanged : Event → Bool
  | .STATE_CHANGED _ _ => true
  | .STATE_CHANGED_PRINT _ _ => true
  | _ => false

def countEvents (p : Event → Bool) (evs : List Event) : Nat :=
  (evs.filter p).length

/-- A print-start transition: previous state in `{IDLE, FINISH, PREPARE}`
and new state `RUNNING`. -/
def startTransB (prev g : GcodeState) : Bool :=
  (prev == GcodeState.IDLE || prev == GcodeState.FINISH ||
   prev == GcodeState.PREPARE) && g == GcodeState.RUNNING

/-- A transition into `FINISH`: previous state known (not `UNKNOWN`),
different from the new state, and new state `FINISH`. -/
def finishTransB (prev g : GcodeState) : Bool :=
  prev != GcodeState.UNKNOWN && prev != GcodeState.FINISH &&
  g == GcodeState.FINISH

/-- Number of adjacent transitions satisfying `p` along a state trace that
starts at `prev` and then takes the listed values in order. -/
def countTrans (p : GcodeState → GcodeState → Bool) :
    GcodeState → List GcodeState → Nat
  | _, [] => 0
  | prev, g :: gs => (if p prev g then 1 else 0) + countTrans p g gs

/-- The condition under which the source emits `PRINT_PAUSED` within one
cycle: a `RUNNING → PAUSE` transition with more than 60 seconds since
`last_paused_time[i]`. -/
def pauseCondB (s : PollState) (r : Reading) : Bool :=
  s.prevGcode == GcodeState.RUNNING && r.gcodeState == GcodeState.PAUSE &&
  decide (60 < r.time - s.lastPausedTime)

/-! ### Per-step facts about `checkPrinterState` -/

lemma checkPrinterState_prevGcode (s : PollState) (r : Reading) :
    (checkPrinterState s r).2.prevGcode = r.gcodeState := rfl

lemma countEvents_append (p : Event → Bool) (a b : List Event) :
    countEvents p (a ++ b) = countEvents p a + countEvents p b := by
  simp [countEvents, List.filter_append]

lemma layerPhase_count (p : Event → Bool)
    (hp : ∀ a b : Int, p (Event.LAYER_CHANGED a b) = false)
    (g : GcodeState) (cl pl : Int) :
    countEvents p (layerPhase g cl pl).1 = 0 := by
  unfold layerPhase
  split_ifs <;> simp [countEvents, hp]

lemma printPhase_count (p : Event → Bool)
    (hp : ∀ a b : PrintStatus, p (Event.STATE_CHANGED_PRINT a b) = false)
    (pp ps : PrintStatus) :
    countEvents p (printPhase pp ps) = 0 := by
  unfold printPhase
  split_ifs <;> simp [countEvents, hp]

lemma step_count_eq_gcodePhase (p : Event → Bool)
    (hl : ∀ a b : Int, p (Event.LAYER_CHANGED a b) = false)
    (hs : ∀ a b : PrintStatus, p (Event.STATE_CHANGED_PRINT a b) = false)
    (s : PollState) (r : Reading) :
    countEvents p (checkPrinterState s r).1 =
      countEvents p (gcodePhase s r).1 := by
  show countEvents p ((gcodePhase s r).1 ++ _ ++ _) = _
  rw [countEvents_append, countEvents_append,
    layerPhase_count p hl, printPhase_count p hs]
  omega

set_option maxHeartbeats 2000000 in
lemma gcodePhase_started_count (s : PollState) (r : Reading) :
    countEvents Event.isStarted (gcodePhase s r).1 =
      if startTransB s.prevGcode r.gcodeState then 1 else 0 := by
  obtain ⟨pg, pp, pl, lt⟩ := s
  obtain ⟨g, ps, cl, ec, t, pt⟩ := r
  cases pg <;> cases g <;>
    (simp only [gcodePhase]
     split_ifs <;> simp_all [countEvents, startTransB, Event.isStarted])

lemma step_started_count (s : PollState) (r : Reading) :
    countEvents Event.isStarted (checkPrinterState s r).1 =
      if startTransB s.prevGcode r.gcodeState then 1 else 0 := by
  rw [step_count_eq_gcodePhase Event.isStarted (fun _ _ => rfl) (fun _ _ => rfl),
    gcodePhase_started_count]

set_option maxHeartbeats 2000000 in
lemma gcodePhase_finished_count (s : PollState) (r : Reading) :
    countEvents Event.isFinished (gcodePhase s r).1 =
      if finishTransB s.prevGcode r.gcodeState then 1 else 0 := by
  obtain ⟨pg, pp, pl, lt⟩ := s
  obtain ⟨g, ps, cl, ec, t, pt⟩ := r
  cases pg <;> cases g <;>
    (simp only [gcodePhase]
     split_ifs <;> simp_all [countEvents, finishTransB, Event.isFinished])

lemma step_finished_count (s : PollState) (r : Reading) :
    countEvents Event.isFinished (checkPrinterState s r).1 =
      if finishTransB s.prevGcode r.gcodeState then 1 else 0 := by
  rw [step_count_eq_gcodePhase Event.isFinished (fun _ _ => rfl) (fun _ _ => rfl),
    gcodePhase_finished_count]

set_option maxHeartbeats 2000000 in
lemma gcodePhase_paused_count (s : PollState) (r : Reading) :
    countEvents Event.isPaused (gcodePhase s r).1 =
      if pauseCondB s r then 1 else 0 := by
  obtain ⟨pg, pp, pl, lt⟩ := s
  obtain ⟨g, ps, cl, ec, t, pt⟩ := r
  cases pg <;> cases g <;>
    (simp only [gcodePhase]
     split_ifs <;> simp_all [countEvents, pauseCondB, Event.isPaused] <;> omega)

lemma step_paused_count (s : PollState) (r : Reading) :
    countEvents Event.isPaused (checkPrinterState s r).1 =
      if pauseCondB s r then 1 else 0 := by
  rw [step_count_eq_gcodePhase Event.isPaused (fun _ _ => rfl) (fun _ _ => rfl),
    gcodePhase_paused_count]

set_option maxHeartbeats 2000000 in
lemma gcodePhase_lastPaused (s : PollState) (r : Reading) :
    (gcodePhase s r).2.2 =
      if pauseCondB s r then r.time else s.lastPausedTime := by
  obtain ⟨pg, pp, pl, lt⟩ := s
  obtain ⟨g, ps, cl, ec, t, pt⟩ := r
  cases pg <;> cases g <;>
    (simp only [gcodePhase]
     split_ifs <;> simp_all [pauseCondB] <;> omega)

lemma step_lastPaused (s : PollState) (r : Reading) :
    (checkPrinterState s r).2.lastPausedTime =
      if pauseCondB s r then r.time else s.lastPausedTime := by
  show (gcodePhase s r).2.2 = _
  exact gcodePhase_lastPaused s r

lemma gcodePhase_unknown (s : PollState) (r : Reading)
    (h : s.prevGcode = GcodeState.UNKNOWN) :
    gcodePhase s r = ([], s.prevLayer, s.lastPausedTime) := by
  simp [gcodePhase, h]

lemma step_no_gcode_statechange (s : PollState) (r : Reading)
    (h : s.prevGcode = GcodeState.UNKNOWN) :
    ((checkPrinterState s r).1.all fun e => !e.isGcodeStateChanged) = true := by
  show ((gcodePhase s r).1 ++ (layerPhase _ _ _).1 ++ printPhase _ _).all _ = true
  rw [gcodePhase_unknown s r h]
  unfold layerPhase printPhase
  split_ifs <;> simp [Event.isGcodeStateChanged]

lemma init_no_statechange (r : Reading) :
    ((checkPrinterState initPollState r).1.all
      fun e => !e.isAnyStateChanged) = true := by
  show ((gcodePhase _ r).1 ++ (layerPhase _ _ _).1 ++ printPhase _ _).all _ = true
  rw [gcodePhase_unknown _ r rfl]
  unfold layerPhase printPhase initPollState
  split_ifs <;> simp_all [Event.isAnyStateChanged]

/-! ### Run-level facts -/

lemma runPoller_started_count (rs : List Reading) :
    ∀ s : PollState,
      countEvents Event.isStarted (runPoller s rs).1 =
        countTrans startTransB s.prevGcode (rs.map Reading.gcodeState) := by
  induction rs with
  | nil => intro s; simp [runPoller, countEvents, countTrans]
  | cons r rs ih =>
    intro s
    simp only [runPoller, List.map_cons, countTrans, countEvents_append,
      step_started_count, ih, checkPrinterState_prevGcode]

lemma runPoller_finished_count (rs : List Reading) :
    ∀ s : PollState,
      countEvents Event.isFinished (runPoller s rs).1 =
        countTrans finishTransB s.prevGcode (rs.map Reading.gcodeState) := by
  induction rs with
  | nil => intro s; simp [runPoller, countEvents, countTrans]
  | cons r rs ih =>
    intro s
    simp only [runPoller, List.map_cons, countTrans, countEvents_append,
      step_finished_count, ih, checkPrinterState_prevGcode]

/-- Once `last_paused_time` lies in the 60-second window `[T, T + 60]` that
also bounds all remaining reading times, no further `PRINT_PAUSED` can be
emitted. -/
lemma runPoller_paused_zero (rs : List Reading) :
    ∀ (s : PollState) (T : Int),
      (rs.all fun r => decide (T ≤ r.time) && decide (r.time ≤ T + 60)) = true →
      T ≤ s.lastPausedTime →
      countEvents Event.isPaused (runPoller s rs).1 = 0 := by
  induction rs with
  | nil => intro s T _ _; simp [runPoller, countEvents]
  | cons r rs ih =>
    intro s T hall hT
    simp only [List.all_cons, Bool.and_eq_true, decide_eq_true_eq] at hall
    obtain ⟨⟨hr1, hr2⟩, hall⟩ := hall
    have hcond : pauseCondB s r = false := by
      simp only [pauseCondB, Bool.and_eq_false_iff, decide_eq_false_iff_not]
      right; omega
    have hT' : T ≤ (checkPrinterState s r).2.lastPausedTime := by
      rw [step_lastPaused, hcond]; simpa using hT
    simp only [runPoller, countEvents_append]
    rw [step_paused_count, hcond, ih _ T (by simpa using hall) hT']
    simp

/-- In any window of 60 seconds, at most one `PRINT_PAUSED` is emitted. -/
lemma runPoller_paused_window (rs : List Reading) :
    ∀ (s : PollState) (T : Int),
      (rs.all fun r => decide (T ≤ r.time) && decide (r.time ≤ T + 60)) = true →
      countEvents Event.isPaused (runPoller s rs).1 ≤ 1 := by
  induction rs with
  | nil => intro s T _; simp [runPoller, countEvents]
  | cons r rs ih =>
    intro s T hall
    simp only [List.all_cons, Bool.and_eq_true, decide_eq_true_eq] at hall
    obtain ⟨⟨hr1, hr2⟩, hall'⟩ := hall
    simp only [runPoller, countEvents_append]
    rw [step_paused_count]
    by_cases hc : pauseCondB s r = true
    · rw [hc]
      have hT' : T ≤ (checkPrinterState s r).2.lastPausedTime := by
        rw [step_lastPaused, hc]; simpa using hr1
      rw [runPoller_paused_zero rs _ T (by simpa using hall') hT']
      simp
    · rw [Bool.not_eq_true] at hc
      rw [hc]
      have hrec := ih ((checkPrinterState s r).2) T (by simpa using hall')
      simpa using hrec

/-! ### Claim C1 and C3 theorems -/

/-- C1: for every sequence of readings fed to the per-printer diff starting
from the UNKNOWN baseline, the emitted events contain exactly one
`PRINT_STARTED` per transition with previous state in
`{IDLE, FINISH, PREPARE}` and new state `RUNNING`, exactly one
`PRINT_FINISHED` per transition into `FINISH` (previous state known and
different), and the first reading after an UNKNOWN previous gcode state
emits no `STATE_CHANGED` (from the initial all-UNKNOWN baseline, no
`STATE_CHANGED` of either shape): the reading only establishes the
baseline. -/
theorem started_finished_event_counts :
    (∀ rs : List Reading,
      countEvents Event.isStarted (runPoller initPollState rs).1 =
        countTrans startTransB GcodeState.UNKNOWN (rs.map Reading.gcodeState)) ∧
    (∀ rs : List Reading,
      countEvents Event.isFinished (runPoller initPollState rs).1 =
        countTrans finishTransB GcodeState.UNKNOWN (rs.map Reading.gcodeState)) ∧
    (∀ (s : PollState) (r : Reading), s.prevGcode = GcodeState.UNKNOWN →
      ((checkPrinterState s r).1.all fun e => !e.isGcodeStateChanged) = true) ∧
    (∀ r : Reading,
      ((checkPrinterState initPollState r).1.all
        fun e => !e.isAnyStateChanged) = true) :=
  ⟨fun rs => runPoller_started_count rs initPollState,
   fun rs => runPoller_finished_count rs initPollState,
   step_no_gcode_statechange,
   init_no_statechange⟩

/-- Witness for C1: a concrete first reading after an UNKNOWN baseline
(a printer seen RUNNING on its very first poll) emits no gcode
`STATE_CHANGED`. -/
theorem started_finished_event_counts_witness :
    initPollState.prevGcode = GcodeState.UNKNOWN ∧
    ((checkPrinterState initPollState
        { gcodeState := GcodeState.RUNNING
          printStatus := PrintStatus.OTHER 1
          currentLayer := 3
          errorCode := 0
          time := 100
          printTime := 90 }).1.all
      fun e => !e.isGcodeStateChanged) = true :=
  ⟨rfl,
   started_finished_event_counts.2.2.1 initPollState
     { gcodeState := GcodeState.RUNNING
       printStatus := PrintStatus.OTHER 1
       currentLayer := 3
       errorCode := 0
       time := 100
       printTime := 90 } rfl⟩

/-- C3: pause debounce.  Per cycle, `PRINT_PAUSED` is emitted exactly when
the gcode state makes a `RUNNING → PAUSE` transition with more than 60
seconds elapsed since the last emitted pause, and `last_paused_time` is
updated to the current time exactly when a `PRINT_PAUSED` is emitted
(otherwise unchanged).  Consequently any reading sequence whose times all
lie within one 60-second window — in particular a
`RUNNING→PAUSE→RUNNING→PAUSE` flap — yields at most one `PRINT_PAUSED`. -/
theorem pause_debounce :
    (∀ (s : PollState) (r : Reading),
      countEvents Event.isPaused (checkPrinterState s r).1 =
        if pauseCondB s r then 1 else 0) ∧
    (∀ (s : PollState) (r : Reading),
      (checkPrinterState s r).2.lastPausedTime =
        if pauseCondB s r then r.time else s.lastPausedTime) ∧
    (∀ (s : PollState) (T : Int) (rs : List Reading),
      (rs.all fun r => decide (T ≤ r.time) && decide (r.time ≤ T + 60)) = true →
      countEvents Event.isPaused (runPoller s rs).1 ≤ 1) :=
  ⟨step_paused_count, step_lastPaused,
   fun s T rs h => runPoller_paused_window rs s T h⟩

/-- Witness for C3: a concrete `RUNNING→PAUSE→RUNNING→PAUSE` flap whose
four readings all lie in the window `[61, 121]` emits at most one
`PRINT_PAUSED`. -/
theorem pause_debounce_witness :
    (([{ gcodeState := GcodeState.PAUSE, printStatus := PrintStatus.UNKNOWN,
         currentLayer := 5, errorCode := 7, time := 65, printTime := 90 },
       { gcodeState := GcodeState.RUNNING, printStatus := PrintStatus.UNKNOWN,
         currentLayer := 5, errorCode := 0, time := 70, printTime := 90 },
       { gcodeState := GcodeState.PAUSE, printStatus := PrintStatus.UNKNOWN,
         currentLayer := 5, errorCode := 7, time := 75, printTime := 90 }] :
        List Reading).all
      fun r => decide ((61 : Int) ≤ r.time) && decide (r.time ≤ 61 + 60)) = true ∧
    countEvents Event.isPaused
      (runPoller
        { prevGcode := GcodeState.RUNNING, prevPrint := PrintStatus.UNKNOWN,
          prevLayer := 5, lastPausedTime := 0 }
        [{ gcodeState := GcodeState.PAUSE, printStatus := PrintStatus.UNKNOWN,
           currentLayer := 5, errorCode := 7, time := 65, printTime := 90 },
         { gcodeState := GcodeState.RUNNING, printStatus := PrintStatus.UNKNOWN,
           currentLayer := 5, errorCode := 0, time := 70, printTime := 90 },
         { gcodeState := GcodeState.PAUSE, printStatus := PrintStatus.UNKNOWN,
           currentLayer := 5, errorCode := 7, time := 75, printTime := 90 }]).1 ≤ 1 :=
  ⟨by decide,
   pause_debounce.2.2
     { prevGcode := GcodeState.RUNNING, prevPrint := PrintStatus.UNKNOWN,
       prevLayer := 5, lastPausedTime := 0 }
     61 _ (by decide)⟩

/-! ### Session store (src/data/storage.py)

Python dicts are modelled as insertion-ordered association lists with
unique keys: `dictInsert` is `m[k] = v` (replace in place when the key is
present, append otherwise), `dictGet` is `m.get(k)`, `dictErase` is
`m.pop(k, None)`'s removal.  Telegram user ids are positive integers and
printer indices are list indices, so dict keys are modelled as `Nat`. -/

def dictInsert {α : Type} : List (Nat × α) → Nat → α → List (Nat × α)
  | [], k, v => [(k, v)]
  | (k', v') :: rest, k, v =>
    if k' = k then (k, v) :: rest else (k', v') :: dictInsert rest k v

def dictGet {α : Type} : List (Nat × α) → Nat → Option α
  | [], _ => none
  | (k', v) :: rest, k => if k' = k then some v else dictGet rest k

def dictErase {α : Type} : List (Nat × α) → Nat → List (Nat × α)
  | [], _ => []
  | (k', v) :: rest, k =>
    if k' = k then dictErase rest k else (k', v) :: dictErase rest k

lemma dictGet_dictInsert {α : Type} (m : List (Nat × α)) (k k' : Nat) (v : α) :
    dictGet (dictInsert m k v) k' = if k = k' then some v else dictGet m k' := by
  induction m with
  | nil => simp [dictInsert, dictGet]
  | cons p rest ih =>
    obtain ⟨pk, pv⟩ := p
    simp only [dictInsert]
    by_cases h : pk = k
    · rw [if_pos h]
      simp only [dictGet]
      by_cases h' : k = k'
      · simp [h']
      · have hpk : ¬ pk = k' := by rw [h]; exact h'
        simp [h', hpk]
    · rw [if_neg h]
      simp only [dictGet, ih]
      by_cases h' : pk = k'
      · have hk : ¬ k = k' := by
          intro hk
          exact h (by rw [h', hk])
        simp [h', hk]
      · simp [h']

lemma dictGet_dictErase_self {α : Type} (m : List (Nat × α)) (k : Nat) :
    dictGet (dictErase m k) k = none := by
  induction m with
  | nil => simp [dictErase, dictGet]
  | cons p rest ih =>
    obtain ⟨pk, pv⟩ := p
    by_cases h : pk = k
    · simpa [dictErase, h] using ih
    · simp [dictErase, h, dictGet, ih]

/-- The `PrintSession` dataclass.  The first eight fields are exactly the
dataclass of `src/data/storage.py`.  The last five fields
(`notify_layer`, `notify_type`, `notify_original_value`,
`notify_layer_notified`, `print_time`) are modelled from the spec's
PrintSession record: `src/bot/handlers.py` and `src/bot/messages.py` read
and write them, but the session-store snapshot under `src/` predates them
and does not define them (their defaults follow the spec: unset /
not-notified / absent). -/
structure PrintSession where
  message_id : Int
  chat_id : String
  printer_index : Nat
  claimed_by : Option Nat := none
  claimed_username : Option String := none
  dm_preference : String := "chat"
  layer2_notify : Bool := true
  layer2_notified : Bool := false
  notify_layer : Option Int := none
  notify_type : Option String := none
  notify_original_value : Option Int := none
  notify_layer_notified : Bool := false
  print_time : Option String := none
  deriving DecidableEq, Repr

/-- The `UserPreferences` dataclass of `src/data/storage.py`. -/
structure UserPreferences where
  default_dm_preference : String := "chat"
  layer2_notify : Bool := true
  deriving DecidableEq, Repr

/-- The in-memory state of `Storage`: `active_prints`
(printer_index → PrintSession), `user_preferences`
(user_id → UserPreferences) and `status_message_id`.  Every mutating
method ends with `self._save()`; persistence is modelled separately by
`Storage.save` / `Storage.load`. -/
structure Storage where
  active_prints : List (Nat × PrintSession) := []
  user_preferences : List (Nat × UserPreferences) := []
  status_message_id : Option Int := none
  deriving DecidableEq, Repr

/-- Python truthiness of an `Optional[int]` field: `None` and `0` are
falsy. -/
def truthyNat : Option Nat → Bool
  | some v => v != 0
  | none => false

/-- `Storage.start_print` as defined in `src/data/storage.py`: create a
fresh `PrintSession` from the three arguments (all other fields default)
and store it under `printer_index`. -/
def Storage.start_print (st : Storage) (printer_index : Nat)
    (message_id : Int) (chat_id : String) : Storage × PrintSession :=
  let session : PrintSession :=
    { message_id := message_id, chat_id := chat_id,
      printer_index := printer_index }
  ({ st with active_prints := dictInsert st.active_prints printer_index session },
   session)

/-- `Storage.claim_print`: look up the session; if present, set
`claimed_by`/`claimed_username` and, when the user has stored preferences,
seed `dm_preference`/`layer2_notify` from them.  Returns the updated
session (`None` when no session exists).  Note the source does not check
whether the session is already claimed. -/
def Storage.claim_print (st : Storage) (printer_index : Nat)
    (user_id : Nat) (username : String) : Storage × Option PrintSession :=
  match dictGet st.active_prints printer_index with
  | none => (st, none)
  | some session =>
    let session :=
      { session with claimed_by := some user_id,
                     claimed_username := some username }
    let session :=
      match dictGet st.user_preferences user_id with
      | some prefs =>
        { session with dm_preference := prefs.default_dm_preference,
                       layer2_notify := prefs.layer2_notify }
      | none => session
    ({ st with
        active_prints := dictInsert st.active_prints printer_index session },
     some session)

/-- `Storage.set_dm_preference`: update the session's preference and, when
the session is claimed (truthy `claimed_by`), also store it as the user's
default (creating the `UserPreferences` entry if needed). -/
def Storage.set_dm_preference (st : Storage) (printer_index : Nat)
    (preference : String) : Storage :=
  match dictGet st.active_prints printer_index with
  | none => st
  | some session =>
    let session := { session with dm_preference := preference }
    let st :=
      { st with
          active_prints := dictInsert st.active_prints printer_index session }
    match session.claimed_by with
    | some uid =>
      if uid ≠ 0 then
        let prefs := (dictGet st.user_preferences uid).getD {}
        { st with
            user_preferences := dictInsert st.user_preferences uid
              { prefs with default_dm_preference := preference } }
      else st
    | none => st

/-- `Storage.set_layer2_notify`: like `set_dm_preference` for the
`layer2_notify` flag. -/
def Storage.set_layer2_notify (st : Storage) (printer_index : Nat)
    (enabled : Bool) : Storage :=
  match dictGet st.active_prints printer_index with
  | none => st
  | some session =>
    let session := { session with layer2_notify := enabled }
    let st :=
      { st with
          active_prints := dictInsert st.active_prints printer_index session }
    match session.claimed_by with
    | some uid =>
      if uid ≠ 0 then
        let prefs := (dictGet st.user_preferences uid).getD {}
        { st with
            user_preferences := dictInsert st.user_preferences uid
              { prefs with layer2_notify := enabled } }
      else st
    | none => st

/-- `Storage.mark_layer2_notified`. -/
def Storage.mark_layer2_notified (st : Storage) (printer_index : Nat) :
    Storage :=
  match dictGet st.active_prints printer_index with
  | none => st
  | some session =>
    { st with
        active_prints := dictInsert st.active_prints printer_index
          { session with layer2_notified := true } }

/-- `Storage.end_print`: `self.active_prints.pop(printer_index, None)` —
remove and return the session. -/
def Storage.end_print (st : Storage) (printer_index : Nat) :
    Storage × Option PrintSession :=
  ({ st with active_prints := dictErase st.active_prints printer_index },
   dictGet st.active_prints printer_index)

/-- `Storage.get_print`. -/
def Storage.get_print (st : Storage) (printer_index : Nat) :
    Option PrintSession :=
  dictGet st.active_prints printer_index

/-- `Storage.set_status_message_id`. -/
def Storage.set_status_message_id (st : Storage) (message_id : Int) :
    Storage :=
  { st with status_message_id := some message_id }

/-- Modelled from the spec: `Storage.unclaim_print` is called by
`src/bot/handlers.py` but its definition is missing from the session-store
snapshot under `src/`.  Spec §4.3: "`unclaim`: clears
claimed_by/claimed_username/dm_preference reset to default/layer2 flags
but preserves the PrintSession row and its message/chat linkage". -/
def Storage.unclaim_print (st : Storage) (printer_index : Nat) : Storage :=
  match dictGet st.active_prints printer_index with
  | none => st
  | some session =>
    { st with
        active_prints := dictInsert st.active_prints printer_index
          { session with claimed_by := none, claimed_username := none,
                         dm_preference := "chat", layer2_notify := true,
                         layer2_notified := false } }

/-- Modelled from the spec: `Storage.set_notify_layer` is called by
`handle_notify` in `src/bot/handlers.py` but missing from the
session-store snapshot under `src/`.  It records the already-converted
target layer together with the notification type and the raw user-entered
value (spec §4.3 `setNotifyTarget`); per the spec's invariants the
`notify_layer_notified` flag is monotonic and not touched here. -/
def Storage.set_notify_layer (st : Storage) (printer_index : Nat)
    (target_layer : Int) (ty : String) (original_value : Int) : Storage :=
  match dictGet st.active_prints printer_index with
  | none => st
  | some session =>
    { st with
        active_prints := dictInsert st.active_prints printer_index
          { session with notify_layer := some target_layer,
                         notify_type := some ty,
                         notify_original_value := some original_value } }

/-- Modelled from the spec: `Storage.mark_notify_layer_notified` is called
by `send_custom_layer_notification` in `src/bot/messages.py` but missing
from the session-store snapshot under `src/`; the counterpart of
`mark_layer2_notified` for the custom target. -/
def Storage.mark_notify_layer_notified (st : Storage) (printer_index : Nat) :
    Storage :=
  match dictGet st.active_prints printer_index with
  | none => st
  | some session =>
    { st with
        active_prints := dictInsert st.active_prints printer_index
          { session with notify_layer_notified := true } }

/-! ### Command handlers (src/bot/handlers.py)

User-visible reply texts are modelled as tagged values (one constructor per
distinct f-string template of the source, carrying the interpolated
data). -/

/-- `_get_claimed_printers`: the printer indices whose session is claimed
by `user_id` (`session.claimed_by == user_id`; a `None` `claimed_by` never
equals an int). -/
def claimedPrinters (st : Storage) (user_id : Nat) : List Nat :=
  (st.active_prints.filter fun p => p.2.claimed_by == some user_id).map
    Prod.fst

/-- Replies produced by `_resolve_printer`. -/
inductive ReplyMsg where
  | noActivePrint
  | invalidPrinterNumber (numPrinters : Nat)
  | notClaimedPrinter (printer_num : Int)
  | multipleClaimed (claimed : List Nat)
  deriving DecidableEq, Repr

/-- `_resolve_printer`: resolve which printer a command refers to from the
user's claimed printers and the optional first argument.  Returns
`(printer_index, error)`; `numPrinters` is `len(cfg.PRINTERS)`.  Python's
`int(args[0])` raising `ValueError` is modelled by `String.toInt? = none`
(the source then returns `(None, None)`). -/
def resolvePrinter (st : Storage) (user_id : Nat) (args : List String)
    (require_claim : Bool) (numPrinters : Nat) :
    Option Nat × Option ReplyMsg :=
  let claimed := claimedPrinters st user_id
  if require_claim && claimed.isEmpty then
    (none, some ReplyMsg.noActivePrint)
  else
    match args with
    | arg0 :: _ =>
      match arg0.toInt? with
      | some printer_num =>
        let printer_index := printer_num - 1
        if printer_index < 0 ∨ (numPrinters : Int) ≤ printer_index then
          (none, some (ReplyMsg.invalidPrinterNumber numPrinters))
        else if require_claim && !(claimed.contains printer_index.toNat) then
          (none, some (ReplyMsg.notClaimedPrinter printer_num))
        else
          (some printer_index.toNat, none)
      | none => (none, none)
    | [] =>
      if claimed.length = 1 then (claimed.head?, none)
      else if 1 < claimed.length then
        (none, some (ReplyMsg.multipleClaimed claimed))
      else (none, some ReplyMsg.noActivePrint)

/-- Outcome of the `claim_<idx>` callback, as signalled to the
requester. -/
inductive ClaimOutcome where
  | sessionEnded
  | alreadyClaimed (username : Option String)
  | claimed
  deriving DecidableEq, Repr

/-- `handle_claim` (src/bot/handlers.py): if no session exists, report
"This print session has ended"; if the session is already claimed (truthy
`claimed_by`), alert the requester with "Already claimed by ..." and leave
the store untouched; otherwise perform `storage.claim_print`. -/
def handleClaim (st : Storage) (printer_index : Nat) (user_id : Nat)
    (username : String) : Storage × ClaimOutcome :=
  match st.get_print printer_index with
  | none => (st, ClaimOutcome.sessionEnded)
  | some session =>
    if truthyNat session.claimed_by then
      (st, ClaimOutcome.alreadyClaimed session.claimed_username)
    else
      ((st.claim_print printer_index user_id username).1,
       ClaimOutcome.claimed)

/-- The percent branch of `handle_notify`: given the parsed percent and the
device's reported `total_layer_num()`, the armed target layer, or `none`
when the handler replies with an error instead ("Percentage must be
between 1 and 100." / "Cannot determine total layers for this print.").
Python's `//` on the two positive operands agrees with `Int` division. -/
def handleNotifyPercent (percent : Int) (total_layers : Int) : Option Int :=
  if percent < 1 ∨ 100 < percent then none
  else if total_layers ≤ 0 then none
  else some (max 1 ((percent * total_layers) / 100))

/-! ### Custom layer notification (src/bot/messages.py) -/

/-- `MessageService.send_custom_layer_notification`: the storage after the
call and whether the notification message was sent.  Early returns:
missing session, unclaimed session (falsy `claimed_by`), falsy
`notify_layer` (None or 0), already notified, or current layer below the
target.  Otherwise the DM is sent and `mark_notify_layer_notified` runs. -/
def sendCustomLayerNotification (st : Storage) (printer_index : Nat)
    (current_layer : Int) : Storage × Bool :=
  match st.get_print printer_index with
  | none => (st, false)
  | some session =>
    if truthyNat session.claimed_by = false then (st, false)
    else
      match session.notify_layer with
      | none => (st, false)
      | some t =>
        if t = 0 then (st, false)
        else if session.notify_layer_notified then (st, false)
        else if current_layer < t then (st, false)
        else (st.mark_notify_layer_notified printer_index, true)

/-- Feed a sequence of `LAYER_CHANGED` layer values through
`send_custom_layer_notification`, recording for each whether the custom
notification fired. -/
def processLayers (st : Storage) (printer_index : Nat) :
    List Int → List Bool
  | [] => []
  | l :: ls =>
    let r := sendCustomLayerNotification st printer_index l
    r.2 :: processLayers r.1 printer_index ls

/-- The expected firing pattern for a one-shot threshold `t`: `false` until
the first layer `≥ t`, `true` there, `false` ever after. -/
def firstReachFlags (t : Int) : List Int → List Bool
  | [] => []
  | l :: ls =>
    if t ≤ l then true :: ls.map (fun _ => false)
    else false :: firstReachFlags t ls

/-! ### Print-started announcement (src/printers/monitor.py +
src/bot/messages.py) -/

/-- The announcement message `send_print_started` posts to the main chat:
its chat, the print-time string and total-layer count interpolated into the
text, and the "Claim Print" inline button. -/
structure Announcement where
  chat_id : String
  text_print_time : String
  text_total_layers : Int
  has_claim_button : Bool
  deriving DecidableEq, Repr

/-- `MessageService.send_print_started`, dispatched for a `PRINT_STARTED`
event: post the announcement (with "Claim Print" button) and persist the
session via `Storage.start_print` keyed by `printer_index` with the
announcement's message id and the context chat id.  The source calls
`self.storage.start_print(printer_index, msg.message_id,
self.ctx.chat_id, print_time)` with a fourth `print_time` argument, but
`Storage.start_print` in `src/data/storage.py` accepts only three and its
`PrintSession` has no `print_time` field; the embedded call therefore uses
the three-parameter `start_print` and the stored session carries no print
time (in Python the four-argument call raises `TypeError`). -/
def sendPrintStarted (st : Storage) (printer_index : Nat)
    (print_time : String) (total_layers : Int) (ctx_chat_id : String)
    (new_message_id : Int) : Storage × Announcement :=
  ((st.start_print printer_index new_message_id ctx_chat_id).1,
   { chat_id := ctx_chat_id
     text_print_time := print_time
     text_total_layers := total_layers
     has_claim_button := true })

/-! ### Manager accessors (src/printers/manager.py) -/

/-- A camera frame as Python sees it: `bytes` or `bytearray`. -/
inductive PyFrame where
  | bytes (data : List Nat)
  | bytearray (data : List Nat)
  deriving DecidableEq, Repr

def PyFrame.isBytes : PyFrame → Bool
  | .bytes _ => true
  | _ => false

structure CameraClient where
  last_frame : Option PyFrame
  deriving DecidableEq, Repr

/-- The slice of a `bambulabs_api.Printer` the accessors inspect. -/
structure Printer where
  mqtt_ready : Bool
  camera_client : CameraClient
  deriving DecidableEq, Repr

/-- The printer list of `PrinterManager` (entries are `None` when the
connection attempt failed). -/
structure PrinterManagerState where
  printers : List (Option Printer)
  deriving DecidableEq, Repr

/-- `PrinterManager.get_printer`: the bounds-checked list access
(`0 <= index < len(self.printers)`), `None` outside. -/
def getPrinter (m : PrinterManagerState) (index : Int) : Option Printer :=
  if 0 ≤ index ∧ index < (m.printers.length : Int) then
    m.printers.getD index.toNat none
  else none

/-- `PrinterManager.get_camera_frame`: `None` when the printer is absent or
its mqtt client not ready; a `bytearray` frame is converted to `bytes`. -/
def getCameraFrame (m : PrinterManagerState) (index : Int) :
    Option PyFrame :=
  match getPrinter m index with
  | none => none
  | some printer =>
    if printer.mqtt_ready = false then none
    else
      match printer.camera_client.last_frame with
      | some (PyFrame.bytearray b) => some (PyFrame.bytes b)
      | f => f

/-! ### Claims C4, C5, C7, C10 -/

/-- C4: a claim attempt on a session whose `claimed_by` is already set (a
real, nonzero user id) leaves the whole store — in particular
`claimed_by` and `claimed_username` — unchanged and signals
"already claimed" to the requester; when `claimed_by` is null, the claim
succeeds and sets `claimed_by`/`claimed_username` to the requester. -/
theorem claim_only_when_unclaimed :
    ∀ (st : Storage) (idx uid : Nat) (uname : String) (s : PrintSession),
      st.get_print idx = some s →
      ((∀ u : Nat, s.claimed_by = some u → u ≠ 0 →
          handleClaim st idx uid uname =
            (st, ClaimOutcome.alreadyClaimed s.claimed_username)) ∧
       (s.claimed_by = none →
          (handleClaim st idx uid uname).2 = ClaimOutcome.claimed ∧
          ∃ s' : PrintSession,
            (handleClaim st idx uid uname).1.get_print idx = some s' ∧
            s'.claimed_by = some uid ∧
            s'.claimed_username = some uname)) := by
  intro st idx uid uname s hget
  constructor
  · intro u hu hu0
    simp [handleClaim, hget, hu, truthyNat, hu0]
  · intro hnone
    have hget' : dictGet st.active_prints idx = some s := hget
    have hcp :
        (st.claim_print idx uid uname).1.get_print idx =
          some ((st.claim_print idx uid uname).2.getD
            { message_id := 0, chat_id := "", printer_index := 0 }) ∧
        ∀ s'', (st.claim_print idx uid uname).2 = some s'' →
          s''.claimed_by = some uid ∧ s''.claimed_username = some uname := by
      cases hp : dictGet st.user_preferences uid with
      | none =>
        simp [Storage.claim_print, hget', hp, Storage.get_print,
          dictGet_dictInsert]
      | some prefs =>
        simp [Storage.claim_print, hget', hp, Storage.get_print,
          dictGet_dictInsert]
    constructor
    · simp [handleClaim, hget, hnone, truthyNat]
    · have hhc :
          handleClaim st idx uid uname =
            ((st.claim_print idx uid uname).1, ClaimOutcome.claimed) := by
        simp [handleClaim, hget, hnone, truthyNat]
      rw [hhc]
      refine ⟨(st.claim_print idx uid uname).2.getD
        { message_id := 0, chat_id := "", printer_index := 0 }, hcp.1, ?_⟩
      cases hres : (st.claim_print idx uid uname).2 with
      | none =>
        exfalso
        have := hcp.1
        rw [hres] at this
        have h2 : (st.claim_print idx uid uname).1.get_print idx = none ∨
            True := Or.inr trivial
        -- claim_print on an existing session always returns `some`
        simp [Storage.claim_print, hget'] at hres
      | some s'' =>
        have := hcp.2 s'' hres
        simpa [hres] using this

/-- Witness for C4: claiming printer 0 (already claimed by user 42) leaves
the store unchanged and reports the existing claimer; claiming printer 1
(unclaimed) succeeds for user 7. -/
theorem claim_only_when_unclaimed_witness :
    (Storage.get_print
        { active_prints :=
            [(0, { message_id := 10, chat_id := "c", printer_index := 0,
                   claimed_by := some 42,
                   claimed_username := some "bob" }),
             (1, { message_id := 11, chat_id := "c", printer_index := 1 })] }
        0 =
      some { message_id := 10, chat_id := "c", printer_index := 0,
             claimed_by := some 42, claimed_username := some "bob" }) ∧
    ({ message_id := 10, chat_id := "c", printer_index := 0,
       claimed_by := some 42,
       claimed_username := some "bob" } : PrintSession).claimed_by =
      some 42 ∧
    (42 : Nat) ≠ 0 ∧
    handleClaim
        { active_prints :=
            [(0, { message_id := 10, chat_id := "c", printer_index := 0,
                   claimed_by := some 42,
                   claimed_username := some "bob" }),
             (1, { message_id := 11, chat_id := "c", printer_index := 1 })] }
        0 7 "eve" =
      ({ active_prints :=
          [(0, { message_id := 10, chat_id := "c", printer_index := 0,
                 claimed_by := some 42,
                 claimed_username := some "bob" }),
           (1, { message_id := 11, chat_id := "c", printer_index := 1 })] },
       ClaimOutcome.alreadyClaimed (some "bob")) :=
  ⟨by decide, by decide, by decide,
   ((claim_only_when_unclaimed
      { active_prints :=
          [(0, { message_id := 10, chat_id := "c", printer_index := 0,
                 claimed_by := some 42,
                 claimed_username := some "bob" }),
           (1, { message_id := 11, chat_id := "c", printer_index := 1 })] }
      0 7 "eve"
      { message_id := 10, chat_id := "c", printer_index := 0,
        claimed_by := some 42, claimed_username := some "bob" }
      (by decide)).1 42 (by decide) (by decide))⟩

/-- C5: unclaiming keeps the session row (non-null, `claimed_by` cleared,
message/chat linkage intact) while `end_print` — the `PRINT_FINISHED`
cleanup — deletes it (`get_print` becomes `None`). -/
theorem unclaim_keeps_row_end_print_deletes :
    ∀ (st : Storage) (idx : Nat) (s : PrintSession),
      st.get_print idx = some s →
      (∃ s' : PrintSession,
        (st.unclaim_print idx).get_print idx = some s' ∧
        s'.claimed_by = none ∧
        s'.message_id = s.message_id ∧
        s'.chat_id = s.chat_id) ∧
      (st.end_print idx).1.get_print idx = none := by
  intro st idx s hget
  have hget' : dictGet st.active_prints idx = some s := hget
  constructor
  · refine ⟨{ s with claimed_by := none, claimed_username := none,
                     dm_preference := "chat", layer2_notify := true,
                     layer2_notified := false }, ?_, rfl, rfl, rfl⟩
    simp [Storage.unclaim_print, hget', Storage.get_print,
      dictGet_dictInsert]
  · simp [Storage.end_print, Storage.get_print, dictGet_dictErase_self]

/-- Witness for C5: a concrete claimed session at printer 0 survives
unclaim with its message/chat linkage and loses its claimer; `end_print`
removes it. -/
theorem unclaim_keeps_row_end_print_deletes_witness :
    (Storage.get_print
        { active_prints :=
            [(0, { message_id := 20, chat_id := "main", printer_index := 0,
                   claimed_by := some 42,
                   claimed_username := some "bob" })] } 0 =
      some { message_id := 20, chat_id := "main", printer_index := 0,
             claimed_by := some 42, claimed_username := some "bob" }) ∧
    ((∃ s' : PrintSession,
        (Storage.unclaim_print
          { active_prints :=
              [(0, { message_id := 20, chat_id := "main", printer_index := 0,
                     claimed_by := some 42,
                     claimed_username := some "bob" })] } 0).get_print 0 =
          some s' ∧
        s'.claimed_by = none ∧
        s'.message_id = 20 ∧
        s'.chat_id = "main") ∧
      (Storage.end_print
        { active_prints :=
            [(0, { message_id := 20, chat_id := "main", printer_index := 0,
                   claimed_by := some 42,
                   claimed_username := some "bob" })] } 0).1.get_print 0 =
        none) :=
  ⟨by decide,
   unclaim_keeps_row_end_print_deletes
     { active_prints :=
         [(0, { message_id := 20, chat_id := "main", printer_index := 0,
                claimed_by := some 42,
                claimed_username := some "bob" })] } 0
     { message_id := 20, chat_id := "main", printer_index := 0,
       claimed_by := some 42, claimed_username := some "bob" }
     (by decide)⟩

/-- C7: implicit printer resolution (no argument) over the caller's claimed
printers: zero claims is an error ("no active print"), exactly one claim
auto-selects that index, two or more claims demand an explicit printer
number. -/
theorem printer_resolution :
    ∀ (st : Storage) (uid numPrinters : Nat),
      (claimedPrinters st uid = [] →
        resolvePrinter st uid [] true numPrinters =
          (none, some ReplyMsg.noActivePrint)) ∧
      (∀ x : Nat, claimedPrinters st uid = [x] →
        resolvePrinter st uid [] true numPrinters = (some x, none)) ∧
      (2 ≤ (claimedPrinters st uid).length →
        resolvePrinter st uid [] true numPrinters =
          (none,
           some (ReplyMsg.multipleClaimed (claimedPrinters st uid)))) := by
  intro st uid n
  refine ⟨fun h => ?_, fun x h => ?_, fun h => ?_⟩
  · simp [resolvePrinter, h]
  · simp [resolvePrinter, h]
  · have hne : (claimedPrinters st uid).isEmpty = false := by
      cases hcp : claimedPrinters st uid with
      | nil => rw [hcp] at h; simp at h
      | cons a l => simp
    have h1 : ¬ (claimedPrinters st uid).length = 1 := by omega
    have h2 : 1 < (claimedPrinters st uid).length := by omega
    simp [resolvePrinter, hne, h1, h2]

/-- Witness for C7: with two claimed printers the resolver demands
disambiguation; with exactly one it auto-selects; with zero it errors. -/
theorem printer_resolution_witness :
    (claimedPrinters
        { active_prints :=
            [(0, { message_id := 1, chat_id := "c", printer_index := 0,
                   claimed_by := some 5, claimed_username := some "a" }),
             (1, { message_id := 2, chat_id := "c", printer_index := 1,
                   claimed_by := some 5, claimed_username := some "a" })] }
        5 = [0, 1]) ∧
    (2 ≤ (claimedPrinters
        { active_prints :=
            [(0, { message_id := 1, chat_id := "c", printer_index := 0,
                   claimed_by := some 5, claimed_username := some "a" }),
             (1, { message_id := 2, chat_id := "c", printer_index := 1,
                   claimed_by := some 5, claimed_username := some "a" })] }
        5).length) ∧
    resolvePrinter
        { active_prints :=
            [(0, { message_id := 1, chat_id := "c", printer_index := 0,
                   claimed_by := some 5, claimed_username := some "a" }),
             (1, { message_id := 2, chat_id := "c", printer_index := 1,
                   claimed_by := some 5, claimed_username := some "a" })] }
        5 [] true 2 =
      (none, some (ReplyMsg.multipleClaimed
        (claimedPrinters
          { active_prints :=
              [(0, { message_id := 1, chat_id := "c", printer_index := 0,
                     claimed_by := some 5, claimed_username := some "a" }),
               (1, { message_id := 2, chat_id := "c", printer_index := 1,
                     claimed_by := some 5,
                     claimed_username := some "a" })] }
          5))) :=
  ⟨by decide, by decide,
   (printer_resolution
      { active_prints :=
          [(0, { message_id := 1, chat_id := "c", printer_index := 0,
                 claimed_by := some 5, claimed_username := some "a" }),
           (1, { message_id := 2, chat_id := "c", printer_index := 1,
                 claimed_by := some 5, claimed_username := some "a" })] }
      5 2).2.2 (by decide)⟩

/-- C10: `get_printer` returns `None` (rather than failing) for any index
outside `[0, len(printers))`; `get_camera_frame` returns `None` when the
printer is absent or its mqtt client is not ready, and any frame it does
return is `bytes`, never `bytearray`. -/
theorem accessor_totality :
    ∀ (m : PrinterManagerState) (index : Int),
      ((index < 0 ∨ (m.printers.length : Int) ≤ index) →
        getPrinter m index = none) ∧
      (getPrinter m index = none → getCameraFrame m index = none) ∧
      (∀ p : Printer, getPrinter m index = some p → p.mqtt_ready = false →
        getCameraFrame m index = none) ∧
      (∀ f : PyFrame, getCameraFrame m index = some f →
        f.isBytes = true) := by
  intro m index
  refine ⟨fun h => ?_, fun h => ?_, fun p hp hm => ?_, fun f hf => ?_⟩
  · unfold getPrinter
    rw [if_neg]
    rintro ⟨h1, h2⟩
    omega
  · simp [getCameraFrame, h]
  · simp [getCameraFrame, hp, hm]
  · unfold getCameraFrame at hf
    cases hg : getPrinter m index with
    | none => rw [hg] at hf; simp at hf
    | some p =>
      rw [hg] at hf
      by_cases hm : p.mqtt_ready = false
      · simp [hm] at hf
      · simp only [hm, if_false] at hf
        cases hlf : p.camera_client.last_frame with
        | none => rw [hlf] at hf; simp at hf
        | some fr =>
          rw [hlf] at hf
          cases fr with
          | bytes b =>
            simp at hf
            rw [← hf]
            rfl
          | bytearray b =>
            simp at hf
            rw [← hf]
            rfl

/-- Witness for C10: index −1 is out of range and returns `None`; a ready
printer holding a `bytearray` frame returns it converted to `bytes`. -/
theorem accessor_totality_witness :
    ((-1 : Int) < 0 ∨ ((1 : Nat) : Int) ≤ (-1 : Int)) ∧
    getPrinter
        { printers :=
            [some { mqtt_ready := true,
                    camera_client :=
                      { last_frame := some (PyFrame.bytearray [1, 2]) } }] }
        (-1) = none ∧
    getCameraFrame
        { printers :=
            [some { mqtt_ready := true,
                    camera_client :=
                      { last_frame := some (PyFrame.bytearray [1, 2]) } }] }
        0 = some (PyFrame.bytes [1, 2]) ∧
    (PyFrame.bytes [1, 2]).isBytes = true :=
  ⟨Or.inl (by decide),
   (accessor_totality
      { printers :=
          [some { mqtt_ready := true,
                  camera_client :=
                    { last_frame := some (PyFrame.bytearray [1, 2]) } }] }
      (-1)).1 (Or.inl (by decide)),
   by decide,
   (accessor_totality
      { printers :=
          [some { mqtt_ready := true,
                  camera_client :=
                    { last_frame := some (PyFrame.bytearray [1, 2]) } }] }
      0).2.2.2 (PyFrame.bytes [1, 2]) (by decide)⟩

/-! ### Claim C2: percent target arming and one-shot firing -/

lemma processLayers_after_notified (layers : List Int) :
    ∀ (st : Storage) (idx : Nat) (s : PrintSession),
      st.get_print idx = some s →
      s.notify_layer_notified = true →
      processLayers st idx layers = layers.map fun _ => false := by
  induction layers with
  | nil => intro st idx s _ _; rfl
  | cons l ls ih =>
    intro st idx s hs hn
    have hstep : sendCustomLayerNotification st idx l = (st, false) := by
      by_cases hcb : truthyNat s.claimed_by = false
      · simp [sendCustomLayerNotification, hs, hcb]
      · cases hnl : s.notify_layer with
        | none => simp [sendCustomLayerNotification, hs, hcb, hnl]
        | some t =>
          by_cases ht : t = 0
          · simp [sendCustomLayerNotification, hs, hcb, hnl, ht]
          · simp [sendCustomLayerNotification, hs, hcb, hnl, ht, hn]
    simp only [processLayers, hstep, List.map_cons]
    rw [ih st idx s hs hn]

lemma processLayers_armed (t : Int) (ht : 0 < t) (layers : List Int) :
    ∀ (st : Storage) (idx : Nat) (s : PrintSession),
      st.get_print idx = some s →
      truthyNat s.claimed_by = true →
      s.notify_layer = some t →
      s.notify_layer_notified = false →
      processLayers st idx layers = firstReachFlags t layers := by
  induction layers with
  | nil => intro st idx s _ _ _ _; rfl
  | cons l ls ih =>
    intro st idx s hs hcb hnl hnn
    have ht0 : ¬ t = 0 := by omega
    by_cases hl : l < t
    · have hstep : sendCustomLayerNotification st idx l = (st, false) := by
        simp [sendCustomLayerNotification, hs, hcb, hnl, ht0, hnn, hl]
      simp only [processLayers, hstep, firstReachFlags]
      rw [if_neg (by omega), ih st idx s hs hcb hnl hnn]
    · have hstep :
          sendCustomLayerNotification st idx l =
            (st.mark_notify_layer_notified idx, true) := by
        simp [sendCustomLayerNotification, hs, hcb, hnl, ht0, hnn, hl]
      have hget' : dictGet st.active_prints idx = some s := hs
      have hs' :
          (st.mark_notify_layer_notified idx).get_print idx =
            some { s with notify_layer_notified := true } := by
        simp [Storage.mark_notify_layer_notified, hget', Storage.get_print,
          dictGet_dictInsert]
      simp only [processLayers, hstep, firstReachFlags]
      rw [if_pos (by omega),
        processLayers_after_notified ls _ idx _ hs' rfl]

/-- C2: with `1 ≤ p ≤ 100` and a positive reported `total_layers`, the
percent branch of `handle_notify` arms the target layer
`max(1, (p * total_layers) // 100)`, computed once at set time; a claimed
session armed with that target then fires the custom notification exactly
once — not while the current layer is below the target, on the first
`LAYER_CHANGED` whose layer reaches it, and never again afterwards. -/
theorem percent_target_armed_fires_once :
    ∀ p total_layers : Int, 1 ≤ p → p ≤ 100 → 0 < total_layers →
      handleNotifyPercent p total_layers =
        some (max 1 ((p * total_layers) / 100)) ∧
      ∀ (st : Storage) (idx : Nat) (s : PrintSession) (layers : List Int),
        st.get_print idx = some s →
        truthyNat s.claimed_by = true →
        s.notify_layer_notified = false →
        processLayers
            (st.set_notify_layer idx (max 1 ((p * total_layers) / 100))
              "percent" p) idx layers =
          firstReachFlags (max 1 ((p * total_layers) / 100)) layers := by
  intro p total h1 h2 h3
  constructor
  · unfold handleNotifyPercent
    rw [if_neg (by omega), if_neg (by omega)]
  · intro st idx s layers hs hcb hnn
    have hget' : dictGet st.active_prints idx = some s := hs
    have harm :
        (st.set_notify_layer idx (max 1 ((p * total) / 100)) "percent"
            p).get_print idx =
          some { s with notify_layer := some (max 1 ((p * total) / 100)),
                        notify_type := some "percent",
                        notify_original_value := some p } := by
      simp [Storage.set_notify_layer, hget', Storage.get_print,
        dictGet_dictInsert]
    have htpos : (0 : Int) < max 1 ((p * total) / 100) := by
      have := le_max_left (1 : Int) ((p * total) / 100)
      omega
    exact processLayers_armed _ htpos layers _ idx _ harm hcb rfl hnn

/-- Witness for C2: `notify 75%` with `total_layers = 200` arms layer 150;
layers 149, 150, 151 produce fire-flags `[false, true, false]`. -/
theorem percent_target_armed_fires_once_witness :
    (1 : Int) ≤ 75 ∧ (75 : Int) ≤ 100 ∧ (0 : Int) < 200 ∧
    handleNotifyPercent 75 200 = some 150 ∧
    processLayers
        (Storage.set_notify_layer
          { active_prints :=
              [(0, { message_id := 1, chat_id := "c", printer_index := 0,
                     claimed_by := some 42,
                     claimed_username := some "bob" })] }
          0 (max 1 ((75 * 200) / 100)) "percent" 75)
        0 [149, 150, 151] =
      firstReachFlags (max 1 ((75 * 200) / 100)) [149, 150, 151] ∧
    firstReachFlags (max 1 ((75 * 200) / 100)) [149, 150, 151] =
      [false, true, false] := by
  refine ⟨by decide, by decide, by decide, ?_, ?_, by decide⟩
  · have h := (percent_target_armed_fires_once 75 200 (by decide) (by decide)
      (by decide)).1
    rw [h]
    decide
  · exact (percent_target_armed_fires_once 75 200 (by decide) (by decide)
      (by decide)).2
      { active_prints :=
          [(0, { message_id := 1, chat_id := "c", printer_index := 0,
                 claimed_by := some 42,
                 claimed_username := some "bob" })] }
      0
      { message_id := 1, chat_id := "c", printer_index := 0,
        claimed_by := some 42, claimed_username := some "bob" }
      [149, 150, 151] (by decide) (by decide) (by decide)

/-! ### Claim C9: monotonicity of the notified flags -/

/-- The `active_prints` shape shared by the store's session-updating
operations: look up the session at `i` and, when present, write back
`f session` (the update of the source's in-place field mutations). -/
def updateSessionAt (st : Storage) (i : Nat)
    (f : PrintSession → PrintSession) : List (Nat × PrintSession) :=
  match dictGet st.active_prints i with
  | none => st.active_prints
  | some sess => dictInsert st.active_prints i (f sess)

lemma updateSessionAt_flags (st : Storage) (i idx : Nat)
    (f : PrintSession → PrintSession)
    (hf1 : ∀ t : PrintSession,
      t.layer2_notified = true → (f t).layer2_notified = true)
    (hf2 : ∀ t : PrintSession,
      t.notify_layer_notified = true → (f t).notify_layer_notified = true)
    (s s' : PrintSession)
    (hs : dictGet st.active_prints idx = some s)
    (hs' : dictGet (updateSessionAt st i f) idx = some s') :
    (s.layer2_notified = true → s'.layer2_notified = true) ∧
    (s.notify_layer_notified = true → s'.notify_layer_notified = true) := by
  unfold updateSessionAt at hs'
  cases hop : dictGet st.active_prints i with
  | none =>
    simp only [hop] at hs'
    rw [hs] at hs'
    injection hs' with h
    subst h
    exact ⟨id, id⟩
  | some sess =>
    simp only [hop] at hs'
    rw [dictGet_dictInsert] at hs'
    by_cases hii : i = idx
    · rw [if_pos hii] at hs'
      injection hs' with h
      subst h
      rw [hii, hs] at hop
      injection hop with h2
      subst h2
      exact ⟨hf1 s, hf2 s⟩
    · rw [if_neg hii] at hs'
      rw [hs] at hs'
      injection hs' with h
      subst h
      exact ⟨id, id⟩

lemma claim_print_active_eq (st : Storage) (i u : Nat) (n : String) :
    (st.claim_print i u n).1.active_prints =
      updateSessionAt st i fun sess =>
        match dictGet st.user_preferences u with
        | some prefs =>
          { sess with claimed_by := some u, claimed_username := some n,
                      dm_preference := prefs.default_dm_preference,
                      layer2_notify := prefs.layer2_notify }
        | none =>
          { sess with claimed_by := some u,
                      claimed_username := some n } := by
  unfold Storage.claim_print updateSessionAt
  cases dictGet st.active_prints i <;> cases dictGet st.user_preferences u <;>
    rfl

lemma set_dm_preference_active_eq (st : Storage) (i : Nat) (p : String) :
    (st.set_dm_preference i p).active_prints =
      updateSessionAt st i fun sess => { sess with dm_preference := p } := by
  unfold Storage.set_dm_preference updateSessionAt
  cases hop : dictGet st.active_prints i with
  | none => rfl
  | some sess =>
    obtain ⟨m, c, pi, cb, cu, dp, l2, l2n, nl, nt, nov, nln, pt⟩ := sess
    cases cb with
    | none => rfl
    | some uid =>
      by_cases h : uid ≠ 0 <;> simp [h]

lemma set_layer2_notify_active_eq (st : Storage) (i : Nat) (b : Bool) :
    (st.set_layer2_notify i b).active_prints =
      updateSessionAt st i fun sess => { sess with layer2_notify := b } := by
  unfold Storage.set_layer2_notify updateSessionAt
  cases hop : dictGet st.active_prints i with
  | none => rfl
  | some sess =>
    obtain ⟨m, c, pi, cb, cu, dp, l2, l2n, nl, nt, nov, nln, pt⟩ := sess
    cases cb with
    | none => rfl
    | some uid =>
      by_cases h : uid ≠ 0 <;> simp [h]

lemma mark_layer2_notified_active_eq (st : Storage) (i : Nat) :
    (st.mark_layer2_notified i).active_prints =
      updateSessionAt st i fun sess =>
        { sess with layer2_notified := true } := by
  unfold Storage.mark_layer2_notified updateSessionAt
  cases dictGet st.active_prints i <;> rfl

lemma set_notify_layer_active_eq (st : Storage) (i : Nat) (t : Int)
    (ty : String) (o : Int) :
    (st.set_notify_layer i t ty o).active_prints =
      updateSessionAt st i fun sess =>
        { sess with notify_layer := some t, notify_type := some ty,
                    notify_original_value := some o } := by
  unfold Storage.set_notify_layer updateSessionAt
  cases dictGet st.active_prints i <;> rfl

lemma mark_notify_layer_notified_active_eq (st : Storage) (i : Nat) :
    (st.mark_notify_layer_notified i).active_prints =
      updateSessionAt st i fun sess =>
        { sess with notify_layer_notified := true } := by
  unfold Storage.mark_notify_layer_notified updateSessionAt
  cases dictGet st.active_prints i <;> rfl

/-- The mutating session-store operations other than session creation
(`start_print`), session deletion (`end_print`) and the spec-modelled
`unclaim_print`: all operations defined in `src/data/storage.py` besides
start/end, plus the two spec-modelled notify mutators used by the bot
layer. -/
inductive StoreOp where
  | claimPrintOp (printer_index user_id : Nat) (username : String)
  | setDmPreferenceOp (printer_index : Nat) (preference : String)
  | setLayer2NotifyOp (printer_index : Nat) (enabled : Bool)
  | markLayer2NotifiedOp (printer_index : Nat)
  | setNotifyLayerOp (printer_index : Nat) (target : Int) (ty : String)
      (orig : Int)
  | markNotifyLayerNotifiedOp (printer_index : Nat)
  | setStatusMessageIdOp (message_id : Int)
  deriving DecidableEq, Repr

def StoreOp.apply : StoreOp → Storage → Storage
  | .claimPrintOp i u n, st => (st.claim_print i u n).1
  | .setDmPreferenceOp i p, st => st.set_dm_preference i p
  | .setLayer2NotifyOp i b, st => st.set_layer2_notify i b
  | .markLayer2NotifiedOp i, st => st.mark_layer2_notified i
  | .setNotifyLayerOp i t ty o, st => st.set_notify_layer i t ty o
  | .markNotifyLayerNotifiedOp i, st => st.mark_notify_layer_notified i
  | .setStatusMessageIdOp m, st => st.set_status_message_id m

/-- C9: for every session-store operation other than `start_print` and
`end_print`, and for every session present in `active_prints`, the
`layer2_notified` and `notify_layer_notified` flags never change from
true to false (in particular `claim_print`, `set_dm_preference`,
`set_layer2_notify` and `mark_layer2_notified` preserve a true value). -/
theorem notified_flags_monotonic :
    ∀ (op : StoreOp) (st : Storage) (idx : Nat) (s s' : PrintSession),
      st.get_print idx = some s →
      (op.apply st).get_print idx = some s' →
      (s.layer2_notified = true → s'.layer2_notified = true) ∧
      (s.notify_layer_notified = true → s'.notify_layer_notified = true) := by
  intro op st idx s s' hs hs'
  cases op with
  | claimPrintOp i u n =>
    have hs'' :
        dictGet (updateSessionAt st i fun sess =>
          match dictGet st.user_preferences u with
          | some prefs =>
            { sess with claimed_by := some u, claimed_username := some n,
                        dm_preference := prefs.default_dm_preference,
                        layer2_notify := prefs.layer2_notify }
          | none =>
            { sess with claimed_by := some u,
                        claimed_username := some n }) idx = some s' := by
      rw [← claim_print_active_eq]
      exact hs'
    exact updateSessionAt_flags st i idx
      (fun sess =>
        match dictGet st.user_preferences u with
        | some prefs =>
          { sess with claimed_by := some u, claimed_username := some n,
                      dm_preference := prefs.default_dm_preference,
                      layer2_notify := prefs.layer2_notify }
        | none =>
          { sess with claimed_by := some u, claimed_username := some n })
      (fun t ht => by cases dictGet st.user_preferences u <;> simpa using ht)
      (fun t ht => by cases dictGet st.user_preferences u <;> simpa using ht)
      s s' hs hs''
  | setDmPreferenceOp i p =>
    have hs'' :
        dictGet (updateSessionAt st i fun sess =>
          { sess with dm_preference := p }) idx = some s' := by
      rw [← set_dm_preference_active_eq]
      exact hs'
    exact updateSessionAt_flags st i idx
      (fun sess => { sess with dm_preference := p })
      (fun t ht => ht) (fun t ht => ht) s s' hs hs''
  | setLayer2NotifyOp i b =>
    have hs'' :
        dictGet (updateSessionAt st i fun sess =>
          { sess with layer2_notify := b }) idx = some s' := by
      rw [← set_layer2_notify_active_eq]
      exact hs'
    exact updateSessionAt_flags st i idx
      (fun sess => { sess with layer2_notify := b })
      (fun t ht => ht) (fun t ht => ht) s s' hs hs''
  | markLayer2NotifiedOp i =>
    have hs'' :
        dictGet (updateSessionAt st i fun sess =>
          { sess with layer2_notified := true }) idx = some s' := by
      rw [← mark_layer2_notified_active_eq]
      exact hs'
    exact updateSessionAt_flags st i idx
      (fun sess => { sess with layer2_notified := true })
      (fun t _ => rfl) (fun t ht => ht) s s' hs hs''
  | setNotifyLayerOp i t ty o =>
    have hs'' :
        dictGet (updateSessionAt st i fun sess =>
          { sess with notify_layer := some t, notify_type := some ty,
                      notify_original_value := some o }) idx = some s' := by
      rw [← set_notify_layer_active_eq]
      exact hs'
    exact updateSessionAt_flags st i idx
      (fun sess =>
        { sess with notify_layer := some t, notify_type := some ty,
                    notify_original_value := some o })
      (fun t ht => ht) (fun t ht => ht) s s' hs hs''
  | markNotifyLayerNotifiedOp i =>
    have hs'' :
        dictGet (updateSessionAt st i fun sess =>
          { sess with notify_layer_notified := true }) idx = some s' := by
      rw [← mark_notify_layer_notified_active_eq]
      exact hs'
    exact updateSessionAt_flags st i idx
      (fun sess => { sess with notify_layer_notified := true })
      (fun t ht => ht) (fun t _ => rfl) s s' hs hs''
  | setStatusMessageIdOp m =>
    have hs'' : st.get_print idx = some s' := hs'
    rw [hs] at hs''
    injection hs'' with h
    subst h
    exact ⟨id, id⟩

/-- Witness for C9: `set_dm_preference` on a session whose flags are both
true leaves both flags true. -/
theorem notified_flags_monotonic_witness :
    (Storage.get_print
        { active_prints :=
            [(0, { message_id := 1, chat_id := "c", printer_index := 0,
                   claimed_by := some 42, claimed_username := some "bob",
                   layer2_notified := true,
                   notify_layer_notified := true })] } 0 =
      some { message_id := 1, chat_id := "c", printer_index := 0,
             claimed_by := some 42, claimed_username := some "bob",
             layer2_notified := true, notify_layer_notified := true }) ∧
    ((StoreOp.setDmPreferenceOp 0 "dm").apply
        { active_prints :=
            [(0, { message_id := 1, chat_id := "c", printer_index := 0,
                   claimed_by := some 42, claimed_username := some "bob",
                   layer2_notified := true,
                   notify_layer_notified := true })] }).get_print 0 =
      some { message_id := 1, chat_id := "c", printer_index := 0,
             claimed_by := some 42, claimed_username := some "bob",
             dm_preference := "dm", layer2_notified := true,
             notify_layer_notified := true } ∧
    (({ message_id := 1, chat_id := "c", printer_index := 0,
        claimed_by := some 42, claimed_username := some "bob",
        layer2_notified := true,
        notify_layer_notified := true } : PrintSession).layer2_notified =
          true →
      ({ message_id := 1, chat_id := "c", printer_index := 0,
         claimed_by := some 42, claimed_username := some "bob",
         dm_preference := "dm", layer2_notified := true,
         notify_layer_notified := true } : PrintSession).layer2_notified =
        true) :=
  ⟨by decide, by decide,
   (notified_flags_monotonic (StoreOp.setDmPreferenceOp 0 "dm")
      { active_prints :=
          [(0, { message_id := 1, chat_id := "c", printer_index := 0,
                 claimed_by := some 42, claimed_username := some "bob",
                 layer2_notified := true,
                 notify_layer_notified := true })] } 0
      { message_id := 1, chat_id := "c", printer_index := 0,
        claimed_by := some 42, claimed_username := some "bob",
        layer2_notified := true, notify_layer_notified := true }
      { message_id := 1, chat_id := "c", printer_index := 0,
        claimed_by := some 42, claimed_username := some "bob",
        dm_preference := "dm", layer2_notified := true,
        notify_layer_notified := true }
      (by decide) (by decide)).1⟩

/-! ### Claim C6: print-started announcement and session persistence -/

/-- C6 evaluation at the failing input: dispatching `PRINT_STARTED` for
printer 0 announces in the main chat with the "Claim Print" action,
showing the print-time string; the session persisted by the
`src/data/storage.py` `start_print` carries the announcement's message id
and chat id but no print time — its `PrintSession` has no `print_time`
value to store (the source's four-argument call
`storage.start_print(printer_index, msg.message_id, self.ctx.chat_id,
print_time)` does not type-check against the three-parameter
definition). -/
theorem print_started_session_lacks_print_time :
    (sendPrintStarted { } 0 "1h30m" 200 "chat1" 555).2.text_print_time =
      "1h30m" ∧
    (sendPrintStarted { } 0 "1h30m" 200 "chat1" 555).2.has_claim_button =
      true ∧
    Storage.get_print (sendPrintStarted { } 0 "1h30m" 200 "chat1" 555).1 0 =
      some { message_id := 555, chat_id := "chat1", printer_index := 0 } ∧
    ({ message_id := 555, chat_id := "chat1",
       printer_index := 0 } : PrintSession).print_time = none := by
  refine ⟨rfl, rfl, ?_, rfl⟩
  decide

/-! ### Claim C8: persistence round-trip (src/data/storage.py `_save` /
`_load`)

`_save` writes the JSON object `{active_prints: {str(idx): asdict(sess)},
user_preferences: {str(uid): asdict(prefs)}, status_message_id}`; `_load`
starts from empty state and inserts every entry under `int(idx)`.  The
decimal-string key conversion is modelled with `toString` / `String.toNat?`
and proved to round-trip (`int(str(n)) = n`); `asdict` followed by the
dataclass constructor is the identity on the field records. -/

/-- The decimal digit characters of `n`, most significant first. -/
def decDigits (n : Nat) : List Char :=
  if _h : n < 10 then [Nat.digitChar n]
  else decDigits (n / 10) ++ [Nat.digitChar (n % 10)]
decreasing_by
  exact Nat.div_lt_self (by omega) (by omega)

lemma digitChar_val (d : Nat) (h : d < 10) :
    (Nat.digitChar d).toNat - 48 = d := by
  interval_cases d <;> decide

lemma digitChar_isDigit (d : Nat) (h : d < 10) :
    (Nat.digitChar d).isDigit = true := by
  interval_cases d <;> decide

lemma toDigitsCore_eq (fuel : Nat) :
    ∀ (n : Nat) (ds : List Char), n < fuel →
      Nat.toDigitsCore 10 fuel n ds = decDigits n ++ ds := by
  induction fuel with
  | zero => intro n ds h; omega
  | succ f ih =>
    intro n ds h
    show (if n / 10 = 0 then Nat.digitChar (n % 10) :: ds
          else Nat.toDigitsCore 10 f (n / 10) (Nat.digitChar (n % 10) :: ds)) =
        decDigits n ++ ds
    by_cases h10 : n / 10 = 0
    · rw [if_pos h10]
      have hn : n < 10 := by
        by_contra h'
        push_neg at h'
        have : 1 ≤ n / 10 := Nat.one_le_div_iff (by omega) |>.mpr h'
        omega
      rw [decDigits, dif_pos hn, Nat.mod_eq_of_lt hn]
      rfl
    · rw [if_neg h10]
      have hge : 10 ≤ n := by
        by_contra h'
        push_neg at h'
        exact h10 (Nat.div_eq_of_lt h')
      have hlt : n / 10 < f := by
        have h1 : n / 10 < n := Nat.div_lt_self (by omega) (by omega)
        omega
      rw [ih (n / 10) (Nat.digitChar (n % 10) :: ds) hlt]
      conv_rhs => rw [decDigits]
      rw [dif_neg (by omega : ¬ n < 10)]
      simp

lemma decDigits_foldl (n : Nat) :
    ∀ a : Nat,
      (decDigits n).foldl (fun r c => r * 10 + (c.toNat - '0'.toNat)) a =
        a * 10 ^ (decDigits n).length + n := by
  induction n using Nat.strong_induction_on with
  | _ n ih =>
    intro a
    by_cases h : n < 10
    · rw [decDigits, dif_pos h]
      simp only [List.foldl_cons, List.foldl_nil, List.length_singleton,
        pow_one]
      rw [show ('0' : Char).toNat = 48 from rfl, digitChar_val n h]
    · rw [decDigits, dif_neg h]
      rw [List.foldl_append]
      have hdiv : n / 10 < n := Nat.div_lt_self (by omega) (by omega)
      rw [ih (n / 10) hdiv a]
      simp only [List.foldl_cons, List.foldl_nil, List.length_append,
        List.length_singleton]
      rw [show ('0' : Char).toNat = 48 from rfl,
        digitChar_val (n % 10) (Nat.mod_lt n (by omega))]
      have hmod : n / 10 * 10 + n % 10 = n := by omega
      calc (a * 10 ^ (decDigits (n / 10)).length + n / 10) * 10 + n % 10
          = a * (10 ^ (decDigits (n / 10)).length * 10) +
              (n / 10 * 10 + n % 10) := by ring
        _ = a * 10 ^ ((decDigits (n / 10)).length + 1) + n := by
              rw [pow_succ, hmod]

lemma decDigits_all_isDigit (n : Nat) :
    (decDigits n).all Char.isDigit = true := by
  induction n using Nat.strong_induction_on with
  | _ n ih =>
    by_cases h : n < 10
    · rw [decDigits, dif_pos h]
      simp [digitChar_isDigit n h]
    · rw [decDigits, dif_neg h]
      have hdiv : n / 10 < n := Nat.div_lt_self (by omega) (by omega)
      simp [List.all_append, ih (n / 10) hdiv,
        digitChar_isDigit (n % 10) (Nat.mod_lt n (by omega))]

lemma decDigits_ne_nil (n : Nat) : decDigits n ≠ [] := by
  rw [decDigits]
  split_ifs <;> simp

/-- `int(str(n)) = n`: parsing the decimal representation of a natural
number gives it back. -/
lemma toNat?_repr (n : Nat) : String.toNat? (Nat.repr n) = some n := by
  have hrepr : Nat.repr n = ⟨decDigits n⟩ := by
    show (Nat.toDigits 10 n).asString = _
    show (Nat.toDigitsCore 10 (n + 1) n []).asString = _
    rw [toDigitsCore_eq (n + 1) n [] (by omega)]
    simp [List.asString]
  rw [hrepr]
  have hNat : String.isNat ⟨decDigits n⟩ = true := by
    unfold String.isNat
    have h1 : (String.mk (decDigits n)).isEmpty = false := by
      rw [Bool.eq_false_iff]
      intro hc
      have := String.isEmpty_iff (String.mk (decDigits n)) |>.mp hc
      exact decDigits_ne_nil n (congrArg String.data this)
    have h2 : (String.mk (decDigits n)).all Char.isDigit = true := by
      rw [String.all_eq]
      exact decDigits_all_isDigit n
    simp [h1, h2]
  unfold String.toNat?
  rw [if_pos hNat]
  congr 1
  rw [String.foldl_eq]
  have := decDigits_foldl n 0
  simpa using this

lemma dictInsert_append_of_not_mem {α : Type} (m : List (Nat × α)) (k : Nat)
    (v : α) (h : k ∉ m.map Prod.fst) : dictInsert m k v = m ++ [(k, v)] := by
  induction m with
  | nil => rfl
  | cons p rest ih =>
    obtain ⟨pk, pv⟩ := p
    simp only [List.map_cons, List.mem_cons] at h
    push_neg at h
    have hne : ¬ pk = k := fun he => h.1 (Eq.symm he)
    simp only [dictInsert, if_neg hne, List.cons_append]
    rw [ih h.2]

lemma foldl_dictInsert_of_nodup {α : Type} (l : List (Nat × α)) :
    ∀ acc : List (Nat × α),
      (((acc ++ l).map Prod.fst).Nodup) →
      l.foldl (fun m p => dictInsert m p.1 p.2) acc = acc ++ l := by
  induction l with
  | nil => intro acc _; simp
  | cons p rest ih =>
    intro acc hnd
    simp only [List.foldl_cons]
    have hmem : p.1 ∉ acc.map Prod.fst := by
      have h1 : p.1 ∈ (p :: rest).map Prod.fst := by simp
      rw [List.map_append, List.nodup_append] at hnd
      exact fun hc => hnd.2.2 hc h1
    rw [dictInsert_append_of_not_mem acc p.1 p.2 hmem]
    have hnd2 : (((acc ++ [(p.1, p.2)]) ++ rest).map Prod.fst).Nodup := by
      simpa using hnd
    rw [ih (acc ++ [(p.1, p.2)]) hnd2]
    simp

lemma mem_keys_dictInsert {α : Type} (m : List (Nat × α)) (k a : Nat) (v : α)
    (h : a ∈ (dictInsert m k v).map Prod.fst) :
    a = k ∨ a ∈ m.map Prod.fst := by
  induction m with
  | nil => simpa [dictInsert] using h
  | cons p rest ih =>
    obtain ⟨pk, pv⟩ := p
    by_cases hk : pk = k
    · rw [dictInsert, if_pos hk] at h
      simp only [List.map_cons, List.mem_cons] at h ⊢
      rcases h with h | h
      · exact Or.inl h
      · exact Or.inr (Or.inr h)
    · rw [dictInsert, if_neg hk] at h
      simp only [List.map_cons, List.mem_cons] at h ⊢
      rcases h with h | h
      · exact Or.inr (Or.inl h)
      · rcases ih h with h' | h'
        · exact Or.inl h'
        · exact Or.inr (Or.inr h')

lemma dictInsert_keys_nodup {α : Type} (m : List (Nat × α)) (k : Nat) (v : α)
    (h : (m.map Prod.fst).Nodup) :
    ((dictInsert m k v).map Prod.fst).Nodup := by
  induction m with
  | nil => simp [dictInsert]
  | cons p rest ih =>
    obtain ⟨pk, pv⟩ := p
    simp only [List.map_cons, List.nodup_cons] at h
    by_cases hk : pk = k
    · rw [dictInsert, if_pos hk]
      simp only [List.map_cons, List.nodup_cons]
      exact ⟨fun hc => h.1 (hk ▸ hc), h.2⟩
    · rw [dictInsert, if_neg hk]
      simp only [List.map_cons, List.nodup_cons]
      refine ⟨fun hc => ?_, ih h.2⟩
      rcases mem_keys_dictInsert rest k pk v hc with h' | h'
      · exact hk h'
      · exact h.1 h'

lemma dictErase_keys_sublist {α : Type} (m : List (Nat × α)) (k : Nat) :
    ((dictErase m k).map Prod.fst).Sublist (m.map Prod.fst) := by
  induction m with
  | nil => simp [dictErase]
  | cons p rest ih =>
    obtain ⟨pk, pv⟩ := p
    by_cases hk : pk = k
    · rw [dictErase, if_pos hk]
      exact ih.trans (List.sublist_cons_self _ _)
    · rw [dictErase, if_neg hk]
      simpa using ih.cons₂ pk

lemma dictErase_keys_nodup {α : Type} (m : List (Nat × α)) (k : Nat)
    (h : (m.map Prod.fst).Nodup) :
    ((dictErase m k).map Prod.fst).Nodup :=
  (dictErase_keys_sublist m k).nodup h

/-- The persisted JSON object written by `_save`: dict keys become decimal
strings (`str(idx)` / `str(uid)`), each dataclass its record of fields
(`asdict`). -/
structure SavedData where
  active_prints : List (String × PrintSession)
  user_preferences : List (String × UserPreferences)
  status_message_id : Option Int
  deriving DecidableEq, Repr

/-- `Storage._save`. -/
def Storage.save (st : Storage) : SavedData :=
  { active_prints := st.active_prints.map fun p => (toString p.1, p.2)
    user_preferences := st.user_preferences.map fun p => (toString p.1, p.2)
    status_message_id := st.status_message_id }

/-- `int(idx)` applied to the decimal keys produced by `_save`. -/
def natKey (s : String) : Nat := (String.toNat? s).getD 0

/-- `Storage._load` into a fresh instance: start from empty state and
insert every saved entry under its parsed integer key, in file order. -/
def Storage.load (d : SavedData) : Storage :=
  { active_prints :=
      d.active_prints.foldl (fun m p => dictInsert m (natKey p.1) p.2) []
    user_preferences :=
      d.user_preferences.foldl (fun m p => dictInsert m (natKey p.1) p.2) []
    status_message_id := d.status_message_id }

lemma natKey_toString (n : Nat) : natKey (toString n) = n := by
  unfold natKey
  rw [show toString n = Nat.repr n from rfl, toNat?_repr]
  rfl

/-- Storage states reachable through the store's mutating operations,
starting from the empty state. -/
inductive Reachable : Storage → Prop where
  | init : Reachable { }
  | startPrintR (st : Storage) (i : Nat) (mid : Int) (cid : String) :
      Reachable st → Reachable (st.start_print i mid cid).1
  | claimPrintR (st : Storage) (i u : Nat) (n : String) :
      Reachable st → Reachable (st.claim_print i u n).1
  | setDmR (st : Storage) (i : Nat) (p : String) :
      Reachable st → Reachable (st.set_dm_preference i p)
  | setL2R (st : Storage) (i : Nat) (b : Bool) :
      Reachable st → Reachable (st.set_layer2_notify i b)
  | markL2R (st : Storage) (i : Nat) :
      Reachable st → Reachable (st.mark_layer2_notified i)
  | endPrintR (st : Storage) (i : Nat) :
      Reachable st → Reachable (st.end_print i).1
  | setStatusR (st : Storage) (m : Int) :
      Reachable st → Reachable (st.set_status_message_id m)
  | unclaimR (st : Storage) (i : Nat) :
      Reachable st → Reachable (st.unclaim_print i)
  | setNotifyR (st : Storage) (i : Nat) (t : Int) (ty : String) (o : Int) :
      Reachable st → Reachable (st.set_notify_layer i t ty o)
  | markNotifyR (st : Storage) (i : Nat) :
      Reachable st → Reachable (st.mark_notify_layer_notified i)

lemma updateSessionAt_keys_nodup (st : Storage) (i : Nat)
    (f : PrintSession → PrintSession)
    (h : (st.active_prints.map Prod.fst).Nodup) :
    ((updateSessionAt st i f).map Prod.fst).Nodup := by
  unfold updateSessionAt
  cases dictGet st.active_prints i with
  | none => exact h
  | some sess => exact dictInsert_keys_nodup _ _ _ h

lemma unclaim_print_active_eq (st : Storage) (i : Nat) :
    (st.unclaim_print i).active_prints =
      updateSessionAt st i fun sess =>
        { sess with claimed_by := none, claimed_username := none,
                    dm_preference := "chat", layer2_notify := true,
                    layer2_notified := false } := by
  unfold Storage.unclaim_print updateSessionAt
  cases dictGet st.active_prints i <;> rfl

lemma claim_print_prefs_eq (st : Storage) (i u : Nat) (n : String) :
    (st.claim_print i u n).1.user_preferences = st.user_preferences := by
  unfold Storage.claim_print
  cases dictGet st.active_prints i with
  | none => rfl
  | some sess => cases dictGet st.user_preferences u <;> rfl

lemma set_dm_preference_prefs_cases (st : Storage) (i : Nat) (p : String) :
    (st.set_dm_preference i p).user_preferences = st.user_preferences ∨
    ∃ (uid : Nat) (prefs : UserPreferences),
      (st.set_dm_preference i p).user_preferences =
        dictInsert st.user_preferences uid prefs := by
  unfold Storage.set_dm_preference
  cases dictGet st.active_prints i with
  | none => exact Or.inl rfl
  | some sess =>
    obtain ⟨m, c, pi, cb, cu, dp, l2, l2n, nl, nt, nov, nln, pt⟩ := sess
    cases cb with
    | none => exact Or.inl rfl
    | some uid =>
      dsimp only
      by_cases h : uid ≠ 0
      · rw [if_pos h]
        exact Or.inr ⟨uid, _, rfl⟩
      · rw [if_neg h]
        exact Or.inl rfl

lemma set_layer2_notify_prefs_cases (st : Storage) (i : Nat) (b : Bool) :
    (st.set_layer2_notify i b).user_preferences = st.user_preferences ∨
    ∃ (uid : Nat) (prefs : UserPreferences),
      (st.set_layer2_notify i b).user_preferences =
        dictInsert st.user_preferences uid prefs := by
  unfold Storage.set_layer2_notify
  cases dictGet st.active_prints i with
  | none => exact Or.inl rfl
  | some sess =>
    obtain ⟨m, c, pi, cb, cu, dp, l2, l2n, nl, nt, nov, nln, pt⟩ := sess
    cases cb with
    | none => exact Or.inl rfl
    | some uid =>
      dsimp only
      by_cases h : uid ≠ 0
      · rw [if_pos h]
        exact Or.inr ⟨uid, _, rfl⟩
      · rw [if_neg h]
        exact Or.inl rfl

lemma mark_layer2_notified_prefs_eq (st : Storage) (i : Nat) :
    (st.mark_layer2_notified i).user_preferences = st.user_preferences := by
  unfold Storage.mark_layer2_notified
  cases dictGet st.active_prints i <;> rfl

lemma set_notify_layer_prefs_eq (st : Storage) (i : Nat) (t : Int)
    (ty : String) (o : Int) :
    (st.set_notify_layer i t ty o).user_preferences =
      st.user_preferences := by
  unfold Storage.set_notify_layer
  cases dictGet st.active_prints i <;> rfl

lemma mark_notify_layer_notified_prefs_eq (st : Storage) (i : Nat) :
    (st.mark_notify_layer_notified i).user_preferences =
      st.user_preferences := by
  unfold Storage.mark_notify_layer_notified
  cases dictGet st.active_prints i <;> rfl

lemma unclaim_print_prefs_eq (st : Storage) (i : Nat) :
    (st.unclaim_print i).user_preferences = st.user_preferences := by
  unfold Storage.unclaim_print
  cases dictGet st.active_prints i <;> rfl

/-- Every reachable storage state has duplicate-free dict keys (the assoc
lists really are dicts). -/
lemma reachable_goodKeys (st : Storage) (h : Reachable st) :
    (st.active_prints.map Prod.fst).Nodup ∧
    (st.user_preferences.map Prod.fst).Nodup := by
  induction h with
  | init => exact ⟨List.nodup_nil, List.nodup_nil⟩
  | startPrintR st i mid cid _ ih =>
    exact ⟨dictInsert_keys_nodup _ _ _ ih.1, ih.2⟩
  | claimPrintR st i u n _ ih =>
    refine ⟨?_, ?_⟩
    · rw [claim_print_active_eq]
      exact updateSessionAt_keys_nodup _ _ _ ih.1
    · rw [claim_print_prefs_eq]
      exact ih.2
  | setDmR st i p _ ih =>
    refine ⟨?_, ?_⟩
    · rw [set_dm_preference_active_eq]
      exact updateSessionAt_keys_nodup _ _ _ ih.1
    · rcases set_dm_preference_prefs_cases st i p with h' | ⟨uid, prefs, h'⟩
      · rw [h']; exact ih.2
      · rw [h']; exact dictInsert_keys_nodup _ _ _ ih.2
  | setL2R st i b _ ih =>
    refine ⟨?_, ?_⟩
    · rw [set_layer2_notify_active_eq]
      exact updateSessionAt_keys_nodup _ _ _ ih.1
    · rcases set_layer2_notify_prefs_cases st i b with h' | ⟨uid, prefs, h'⟩
      · rw [h']; exact ih.2
      · rw [h']; exact dictInsert_keys_nodup _ _ _ ih.2
  | markL2R st i _ ih =>
    refine ⟨?_, ?_⟩
    · rw [mark_layer2_notified_active_eq]
      exact updateSessionAt_keys_nodup _ _ _ ih.1
    · rw [mark_layer2_notified_prefs_eq]
      exact ih.2
  | endPrintR st i _ ih =>
    exact ⟨dictErase_keys_nodup _ _ ih.1, ih.2⟩
  | setStatusR st m _ ih => exact ih
  | unclaimR st i _ ih =>
    refine ⟨?_, ?_⟩
    · rw [unclaim_print_active_eq]
      exact updateSessionAt_keys_nodup _ _ _ ih.1
    · rw [unclaim_print_prefs_eq]
      exact ih.2
  | setNotifyR st i t ty o _ ih =>
    refine ⟨?_, ?_⟩
    · rw [set_notify_layer_active_eq]
      exact updateSessionAt_keys_nodup _ _ _ ih.1
    · rw [set_notify_layer_prefs_eq]
      exact ih.2
  | markNotifyR st i _ ih =>
    refine ⟨?_, ?_⟩
    · rw [mark_notify_layer_notified_active_eq]
      exact updateSessionAt_keys_nodup _ _ _ ih.1
    · rw [mark_notify_layer_notified_prefs_eq]
      exact ih.2

/-- C8: for every store state reachable through the mutating operations,
saving to the persisted file and loading it into a fresh `Storage` yields
identical `active_prints` and `user_preferences` contents. -/
theorem persistence_round_trip :
    ∀ st : Storage, Reachable st →
      (Storage.load (Storage.save st)).active_prints = st.active_prints ∧
      (Storage.load (Storage.save st)).user_preferences =
        st.user_preferences := by
  intro st h
  obtain ⟨h1, h2⟩ := reachable_goodKeys st h
  unfold Storage.load Storage.save
  constructor
  · show (st.active_prints.map fun p => (toString p.1, p.2)).foldl
        (fun m p => dictInsert m (natKey p.1) p.2) [] = _
    rw [List.foldl_map]
    dsimp only
    simp only [natKey_toString]
    exact foldl_dictInsert_of_nodup st.active_prints [] (by simpa using h1)
  · show (st.user_preferences.map fun p => (toString p.1, p.2)).foldl
        (fun m p => dictInsert m (natKey p.1) p.2) [] = _
    rw [List.foldl_map]
    dsimp only
    simp only [natKey_toString]
    exact foldl_dictInsert_of_nodup st.user_preferences []
      (by simpa using h2)

/-- Witness for C8: a concrete reachable state — start a print on printer
0, claim it, set a DM preference — round-trips through save/load. -/
theorem persistence_round_trip_witness :
    (Storage.load (Storage.save
        ((((({ } : Storage).start_print 0 10 "c").1.claim_print 0 42
            "bob").1.set_dm_preference 0 "dm")))).active_prints =
      (((({ } : Storage).start_print 0 10 "c").1.claim_print 0 42
          "bob").1.set_dm_preference 0 "dm").active_prints ∧
    (Storage.load (Storage.save
        ((((({ } : Storage).start_print 0 10 "c").1.claim_print 0 42
            "bob").1.set_dm_preference 0 "dm")))).user_preferences =
      (((({ } : Storage).start_print 0 10 "c").1.claim_print 0 42
          "bob").1.set_dm_preference 0 "dm").user_preferences :=
  persistence_round_trip _
    (Reachable.setDmR _ 0 "dm"
      (Reachable.claimPrintR _ 0 42 "bob"
        (Reachable.startPrintR _ 0 10 "c" Reachable.init)))

end Telebambu
